import Mathlib

/-!
Shallow embedding of `automated_flight_tracking_system.py`.

Remote effects (the Gemini generation call and each Jira HTTP request) are
modelled by oracles: a function giving, for each request the program makes,
the outcome the external service returns.  Pure code (JSON extraction, link
type selection, the key-rotation loop, the orchestration control flow) is
translated directly.  Raised Python exceptions are modelled with `Except`:
`Except.error` means the exception propagates out of the modelled function.
-/

/-- JSON values as produced by the JSON decoder (Python `json.loads`).
Numbers keep their source lexeme so that no floating-point interpretation
is needed; Python `None` from `null` is `Json.null`. -/
inductive Json where
  | null
  | bool (b : Bool)
  | num (lexeme : String)
  | str (s : String)
  | arr (elems : List Json)
  | obj (fields : List (String × Json))
  deriving Repr

/-- JSON whitespace characters (space, tab, line feed, carriage return). -/
def isJsonWs (c : Char) : Bool :=
  [32, 9, 10, 13].contains c.toNat

/-- Drops leading JSON whitespace. -/
def skipWs : List Char → List Char
  | [] => []
  | c :: cs => if isJsonWs c then skipWs cs else c :: cs

/-- Value of one hexadecimal digit (0-9, a-f, A-F by code point). -/
def hexVal (c : Char) : Option Nat :=
  let n := c.toNat
  if 48 ≤ n && n ≤ 57 then some (n - 48)
  else if 97 ≤ n && n ≤ 102 then some (n - 87)
  else if 65 ≤ n && n ≤ 70 then some (n - 55)
  else none

/-- Single-character JSON string escapes. -/
def escChar (e : Char) : Option Char :=
  if e == '"' then some ('"')
  else if e == '\\' then some ('\\')
  else if e == '/' then some ('/')
  else if e == 'b' then some ('\x08')
  else if e == 'f' then some ('\x0c')
  else if e == 'n' then some ('\n')
  else if e == 'r' then some ('\r')
  else if e == 't' then some ('\t')
  else none

/-- Parses the body of a JSON string after the opening quote; returns the
decoded characters and the remaining input after the closing quote. -/
def parseStrChars : List Char → Option (List Char × List Char)
  | [] => none
  | '"' :: cs => some ([], cs)
  | '\\' :: 'u' :: h1 :: h2 :: h3 :: h4 :: cs =>
    match hexVal h1, hexVal h2, hexVal h3, hexVal h4 with
    | some a, some b, some c, some d =>
      (parseStrChars cs).map (fun r => (Char.ofNat (((a * 16 + b) * 16 + c) * 16 + d) :: r.1, r.2))
    | _, _, _, _ => none
  | '\\' :: e :: cs =>
    match escChar e with
    | some ch => (parseStrChars cs).map (fun r => (ch :: r.1, r.2))
    | none => none
  | c :: cs =>
    if c.toNat < 32 then none
    else (parseStrChars cs).map (fun r => (c :: r.1, r.2))

/-- Splits off a maximal run of leading decimal digits. -/
def takeDigits : List Char → List Char × List Char
  | [] => ([], [])
  | c :: cs =>
    if c.isDigit then (c :: (takeDigits cs).1, (takeDigits cs).2)
    else ([], c :: cs)

/-- At least one decimal digit. -/
def parseDigits1 (cs : List Char) : Option (List Char × List Char) :=
  match cs with
  | c :: rest =>
    if c.isDigit then some (c :: (takeDigits rest).1, (takeDigits rest).2)
    else none
  | [] => none

/-- Integer part of a JSON number: `0` or a nonzero digit followed by digits. -/
def parseIntLex (cs : List Char) : Option (List Char × List Char) :=
  match cs with
  | c :: rest =>
    if c == '0' then some ([c], rest)
    else if c.isDigit then some (c :: (takeDigits rest).1, (takeDigits rest).2)
    else none
  | [] => none

/-- Optional fractional part of a JSON number. -/
def parseFracLex (cs : List Char) : Option (List Char × List Char) :=
  match cs with
  | '.' :: rest =>
    match parseDigits1 rest with
    | some (ds, rest2) => some ('.' :: ds, rest2)
    | none => none
  | _ => some ([], cs)

/-- Optional exponent part of a JSON number. -/
def parseExpLex (cs : List Char) : Option (List Char × List Char) :=
  match cs with
  | e :: rest =>
    if e == 'e' || e == 'E' then
      match rest with
      | s :: rest2 =>
        if s == '+' || s == '-' then
          match parseDigits1 rest2 with
          | some (ds, rest3) => some (e :: s :: ds, rest3)
          | none => none
        else
          match parseDigits1 rest with
          | some (ds, rest3) => some (e :: ds, rest3)
          | none => none
      | [] => none
    else some ([], cs)
  | [] => some ([], cs)

/-- Lexeme of a JSON number. -/
def parseNumLex (cs : List Char) : Option (List Char × List Char) :=
  let core := fun (cs2 : List Char) =>
    match parseIntLex cs2 with
    | some (ip, r1) =>
      match parseFracLex r1 with
      | some (fp, r2) =>
        match parseExpLex r2 with
        | some (ep, r3) => some (ip ++ fp ++ ep, r3)
        | none => none
      | none => none
    | none => none
  match cs with
  | '-' :: rest =>
    match core rest with
    | some (lex, r) => some ('-' :: lex, r)
    | none => none
  | _ => core cs

/-- Matches an expected literal character sequence. -/
def expectChars : List Char → List Char → Option (List Char)
  | [], cs => some cs
  | e :: es, c :: cs => if c == e then expectChars es cs else none
  | _ :: _, [] => none

/-- Opening curly bracket character. -/
def lbraceChar : Char := Char.ofNat 123

/-- Closing curly bracket character. -/
def rbraceChar : Char := Char.ofNat 125

/-- Intermediate results of the recursive-descent JSON parser. -/
inductive PRes where
  | v (j : Json)
  | elems (l : List Json)
  | fields (l : List (String × Json))
  deriving Repr

/-- Recursive-descent JSON parser.  `mode` 0 parses one value, mode 1 parses
the comma-separated elements of an array up to the closing bracket, any other
mode parses the members of an object up to the closing bracket.  `fuel`
bounds the recursion depth; `json_loads` supplies enough fuel for any input
of the given length. -/
def parseCore : Nat → Nat → List Char → Option (PRes × List Char)
  | 0, _, _ => none
  | fuel + 1, mode, cs =>
    if mode == 0 then
      match skipWs cs with
      | [] => none
      | c :: rest =>
        if c == '"' then
          (parseStrChars rest).map (fun r => (PRes.v (Json.str (String.mk r.1)), r.2))
        else if c == '[' then
          match skipWs rest with
          | ']' :: rest2 => some (PRes.v (Json.arr []), rest2)
          | _ =>
            match parseCore fuel 1 rest with
            | some (PRes.elems l, rest2) => some (PRes.v (Json.arr l), rest2)
            | _ => none
        else if c == lbraceChar then
          match skipWs rest with
          | d :: rest2 =>
            if d == rbraceChar then some (PRes.v (Json.obj []), rest2)
            else
              match parseCore fuel 2 rest with
              | some (PRes.fields l, rest3) => some (PRes.v (Json.obj l), rest3)
              | _ => none
          | [] => none
        else if c == 't' then
          (expectChars ['r', 'u', 'e'] rest).map (fun r => (PRes.v (Json.bool true), r))
        else if c == 'f' then
          (expectChars ['a', 'l', 's', 'e'] rest).map (fun r => (PRes.v (Json.bool false), r))
        else if c == 'n' then
          (expectChars ['u', 'l', 'l'] rest).map (fun r => (PRes.v Json.null, r))
        else
          match parseNumLex (c :: rest) with
          | some (lex, rest2) => some (PRes.v (Json.num (String.mk lex)), rest2)
          | none => none
    else if mode == 1 then
      match parseCore fuel 0 cs with
      | some (PRes.v j, rest) =>
        match skipWs rest with
        | ',' :: rest2 =>
          match parseCore fuel 1 rest2 with
          | some (PRes.elems l, rest3) => some (PRes.elems (j :: l), rest3)
          | _ => none
        | ']' :: rest2 => some (PRes.elems [j], rest2)
        | _ => none
      | _ => none
    else
      match skipWs cs with
      | c :: rest =>
        if c == '"' then
          match parseStrChars rest with
          | some (kcs, rest2) =>
            match skipWs rest2 with
            | ':' :: rest3 =>
              match parseCore fuel 0 rest3 with
              | some (PRes.v j, rest4) =>
                match skipWs rest4 with
                | ',' :: rest5 =>
                  match parseCore fuel 2 rest5 with
                  | some (PRes.fields l, rest6) => some (PRes.fields ((String.mk kcs, j) :: l), rest6)
                  | _ => none
                | d :: rest5 =>
                  if d == rbraceChar then some (PRes.fields [(String.mk kcs, j)], rest5)
                  else none
                | [] => none
              | _ => none
            | _ => none
          | none => none
        else none
      | [] => none

/-- Model of Python `json.loads`: parse one JSON value and require that only
whitespace remains. -/
def json_loads (s : String) : Option Json :=
  let cs := s.toList
  match parseCore (2 * cs.length + 4) 0 cs with
  | some (PRes.v j, rest) => if (skipWs rest).isEmpty then some j else none
  | _ => none

/-- Index of the first occurrence of a character, as Python `str.find`
(with `none` for the -1 sentinel). -/
def strFindIdx : List Char → Char → Option Nat
  | [], _ => none
  | x :: xs, c => if x == c then some 0 else (strFindIdx xs c).map (· + 1)

/-- Index of the last occurrence of a character, as Python `str.rfind`
(with `none` for the -1 sentinel). -/
def strRFindIdx : List Char → Char → Option Nat
  | [], _ => none
  | x :: xs, c =>
    match strRFindIdx xs c with
    | some i => some (i + 1)
    | none => if x == c then some 0 else none

/-- Embedding of `parse_json_from_text` (source lines 182-194).  The Python
guard `json_start_index != -1 and json_end_index > json_start_index`, with
`json_end_index = rfind + 1`, is the same as: both characters occur and the
first occurrence of the opening bracket is at or before the last occurrence
of the closing bracket; then the inclusive slice between them is decoded,
otherwise the whole raw text is decoded.  A decode error becomes `none`. -/
def parse_json_from_text (raw : String) : Option Json :=
  let cs := raw.toList
  match strFindIdx cs '[', strRFindIdx cs ']' with
  | some i, some j =>
    if i ≤ j then json_loads (String.mk ((cs.drop i).take (j + 1 - i)))
    else json_loads raw
  | some _, none => json_loads raw
  | none, _ => json_loads raw

/-- Outcome of one call to `generate_with_gemini_resilience`: the returned
text (`none` when the final `ConnectionError` is raised), the value of the
global `active_gemini_key_index` cursor after the call, and the list of
cursor positions at which a generation attempt was made, in order. -/
structure GenResult where
  result : Option String
  cursor : Nat
  attempts : List Nat
  deriving DecidableEq, Repr

/-- Embedding of the `while num_attempts < len(gemini_api_keys)` loop of
`generate_with_gemini_resilience` (source lines 45-64).  `oracle n` is the
outcome the remote service returns for the n-th attempt of this call
(`none` = the call raised an exception).  The loop guard is represented by
`fuel`, initialised to the pool size `N`; `num_attempts` is incremented
exactly once per failed iteration, so `fuel = N - num_attempts` throughout.
On failure the cursor advances to `(cursor + 1) % N`; on success the loop
returns immediately, leaving the cursor untouched.  The sleeps (quota pause
and full-cycle pause) have no effect on the computed state and are omitted. -/
def genLoop (oracle : Nat → Option String) (N : Nat) : Nat → Nat → Nat → GenResult
  | 0, cursor, _ => ⟨none, cursor, []⟩
  | fuel + 1, cursor, num_attempts =>
    match oracle num_attempts with
    | some text => ⟨some text, cursor, [cursor]⟩
    | none =>
      let r := genLoop oracle N fuel ((cursor + 1) % N) (num_attempts + 1)
      ⟨r.result, r.cursor, cursor :: r.attempts⟩

/-- Embedding of `generate_with_gemini_resilience` for a pool of `N` keys,
entered with the global cursor at `active_gemini_key_index`.
`result = none` models the final `raise ConnectionError` (pool exhausted). -/
def generate_with_gemini_resilience (N : Nat) (oracle : Nat → Option String)
    (active_gemini_key_index : Nat) : GenResult :=
  genLoop oracle N N active_gemini_key_index 0

/-- Embedding of `generate_subtasks_from_requirement` (source lines 196-221):
call the resilient generator on the prompt and feed the raw text to
`parse_json_from_text`.  There is no exception handler, so when the
generator raises `ConnectionError` the exception propagates out
(`Except.error ()`); otherwise the parse result (possibly `none`) is
returned together with the cursor left by the generator. -/
def generate_subtasks_from_requirement (N : Nat) (oracle : Nat → Option String)
    (active_index : Nat) : Except Unit (Option Json × Nat) :=
  let g := generate_with_gemini_resilience N oracle active_index
  match g.result with
  | none => Except.error ()
  | some raw => Except.ok (parse_json_from_text raw, g.cursor)

/-- Embedding of `generate_test_cases_for_task` (source lines 223-250); the
prompt differs but the control flow is identical to
`generate_subtasks_from_requirement`. -/
def generate_test_cases_for_task (N : Nat) (oracle : Nat → Option String)
    (active_index : Nat) : Except Unit (Option Json × Nat) :=
  let g := generate_with_gemini_resilience N oracle active_index
  match g.result with
  | none => Except.error ()
  | some raw => Except.ok (parse_json_from_text raw, g.cursor)

/-- Jira issue link type, as returned by the tracker. -/
structure LinkType where
  name : String
  inward : String
  outward : String
  deriving DecidableEq, Repr

/-- Issue record returned by the project search. -/
structure Issue where
  key : String
  summary : String
  statusName : String
  assignee : Option String
  deriving DecidableEq, Repr

/-- HTTP response to an issue-creation request: status code and the `key`
field of the created issue in the JSON body. -/
structure CreateIssueResponse where
  status : Nat
  key : String
  deriving DecidableEq, Repr

/-- HTTP response to the project search request. -/
structure SearchResponse where
  status : Nat
  issues : List Issue
  deriving DecidableEq, Repr

/-- HTTP response to the link-types request. -/
structure LinkTypesResponse where
  status : Nat
  issueLinkTypes : List LinkType
  deriving DecidableEq, Repr

/-- HTTP response to an issue-link request. -/
structure LinkResponse where
  status : Nat
  deriving DecidableEq, Repr

/-- Embedding of `create_jira_issue` (source lines 69-93): the created key on
status 201, `None` otherwise. -/
def create_jira_issue (resp : CreateIssueResponse) : Option String :=
  if resp.status == 201 then some resp.key else none

/-- Embedding of `create_jira_child_issue` (source lines 95-120): same
sentinel contract as `create_jira_issue`. -/
def create_jira_child_issue (resp : CreateIssueResponse) : Option String :=
  if resp.status == 201 then some resp.key else none

/-- Embedding of `get_project_issues` (source lines 122-145): the issue list
on status 200, the empty list otherwise. -/
def get_project_issues (resp : SearchResponse) : List Issue :=
  if resp.status == 200 then resp.issues else []

/-- Embedding of `get_jira_issue_link_types` (source lines 147-160): the link
type list on status 200, the empty list otherwise. -/
def get_jira_issue_link_types (resp : LinkTypesResponse) : List LinkType :=
  if resp.status == 200 then resp.issueLinkTypes else []

/-- Embedding of `link_jira_issues` (source lines 162-179): `True` exactly on
status 201. -/
def link_jira_issues (resp : LinkResponse) : Bool :=
  resp.status == 201

/-- Task specification produced by the planner (title, summary, category,
component). -/
structure TaskSpec where
  title : String
  summary : String
  category : String
  component : String
  deriving DecidableEq, Repr

/-- Record of one `link_jira_issues` call made by `create_and_link_tasks`:
outward issue, inward issue, and the link type name used. -/
structure LinkAttempt where
  source : String
  target : String
  linkName : String
  deriving DecidableEq, Repr

/-- Return value and observable remote-call record of
`create_and_link_tasks`: the `created_issue_keys` list, the
`issue_data_mapping` dict (as an association list with unique keys, in
insertion order), and the list of attempted links. -/
structure CatlResult where
  created_issue_keys : List String
  issue_data_mapping : List (String × TaskSpec)
  link_attempts : List LinkAttempt
  deriving DecidableEq, Repr

/-- Python dict assignment `m[k] = v`: update in place if the key is
present, otherwise append.  On lists whose keys are unique (the only lists
built here) this is exactly the CPython dict semantics. -/
def dictSet {α : Type} : List (String × α) → String → α → List (String × α)
  | [], k, v => [(k, v)]
  | p :: rest, k, v => if p.1 == k then (k, v) :: rest else p :: dictSet rest k v

/-- Python `m.get(k)`: the value at the first (on unique-key lists, the
only) occurrence of the key, `None` when absent. -/
def dictGet {α : Type} : List (String × α) → String → Option α
  | [], _ => none
  | p :: rest, k => if p.1 == k then some p.2 else dictGet rest k

/-- The hard-coded preference order of `create_and_link_tasks`
(source line 259). -/
def preferred_link_types : List String := ["Relates", "Relates to", "Dependency", "Blocks"]

/-- Link-type selection of `create_and_link_tasks` (source lines 258-263):
the first preferred name occurring among the available names, else the first
available name, else `None`. -/
def select_link_type (available_link_types : List LinkType) : Option String :=
  match preferred_link_types.find?
      (fun t => (available_link_types.map (fun lt => lt.name)).contains t) with
  | some t => some t
  | none =>
    match available_link_types with
    | [] => none
    | lt0 :: _ => some lt0.name

/-- Embedding of the `for task in task_definitions` loop of
`create_and_link_tasks` (source lines 270-283).  `createOutcome i` is the
tracker's response to the i-th creation request (`none` = non-201 status,
creation failed).  On success the key is appended, the mapping is updated
and, when a truthy link type name was resolved (Python `if link_type_to_use`
is false for `None` and for the empty string), a link attempt is recorded;
its HTTP outcome does not influence the state. -/
def catl_loop (parent_ticket_key : String) (link_type_to_use : Option String)
    (createOutcome : Nat → Option String) :
    List TaskSpec → Nat → CatlResult → CatlResult
  | [], _, acc => acc
  | task :: rest, i, acc =>
    match createOutcome i with
    | none => catl_loop parent_ticket_key link_type_to_use createOutcome rest (i + 1) acc
    | some k =>
      let acc2 : CatlResult :=
        { created_issue_keys := acc.created_issue_keys ++ [k]
          issue_data_mapping := dictSet acc.issue_data_mapping k task
          link_attempts :=
            match link_type_to_use with
            | some lt =>
              if lt.isEmpty then acc.link_attempts
              else acc.link_attempts ++ [⟨parent_ticket_key, k, lt⟩]
            | none => acc.link_attempts }
      catl_loop parent_ticket_key link_type_to_use createOutcome rest (i + 1) acc2

/-- Embedding of `create_and_link_tasks` (source lines 253-285).
`available_link_types` is the list returned by
`get_jira_issue_link_types`. -/
def create_and_link_tasks (parent_ticket_key : String) (task_definitions : List TaskSpec)
    (available_link_types : List LinkType) (createOutcome : Nat → Option String) : CatlResult :=
  catl_loop parent_ticket_key (select_link_type available_link_types) createOutcome
    task_definitions 0 ⟨[], [], []⟩

/-- Python exceptions raised by unguarded dynamic field access. -/
inductive PyError where
  | keyError (field : String)
  | typeError
  deriving DecidableEq, Repr

/-- Lookup in a decoded JSON object (CPython keeps the last of duplicate
keys). -/
def jobjGet : List (String × Json) → String → Option Json
  | [], _ => none
  | (k, v) :: rest, f =>
    match jobjGet rest f with
    | some r => some r
    | none => if k == f then some v else none

/-- Python subscript `j[field]`: `KeyError` when the key is absent from a
dict, `TypeError` when the value is not a dict. -/
def jget (j : Json) (field : String) : Except PyError Json :=
  match j with
  | Json.obj fields =>
    match jobjGet fields field with
    | some v => Except.ok v
    | none => Except.error (PyError.keyError field)
  | _ => Except.error PyError.typeError

/-- Recogniser for JSON strings. -/
def isJsonStr : Json → Bool
  | Json.str _ => true
  | _ => false

/-- Model of `", ".join(x)`: requires a list of strings (other iterables are
conservatively modelled as `TypeError`). -/
def joinCheck (j : Json) : Except PyError Unit :=
  match j with
  | Json.arr l => if l.all isJsonStr then Except.ok () else Except.error PyError.typeError
  | _ => Except.error PyError.typeError

/-- The unguarded field reads `process_and_create_test_cases` performs on one
element of the parsed list, in first-occurrence order (source lines
295-312): `test_id`, `test_name`, `priority`, `description`, `steps`
(joined, so it must be a list of strings), `expected_result`.  Later repeated
reads of the same fields cannot fail once these succeed. -/
def readTestCase (tc : Json) : Except PyError Unit := do
  let _ ← jget tc ("test_id")
  let _ ← jget tc ("test_name")
  let _ ← jget tc ("priority")
  let _ ← jget tc ("description")
  let steps ← jget tc ("steps")
  let _ ← joinCheck steps
  let _ ← jget tc ("expected_result")
  Except.ok ()

/-- Truthiness of the mantissa of a JSON number lexeme (Python `0`, `0.0`,
`-0e5` are falsy). -/
def numLexIsZero (lex : String) : Bool :=
  (lex.toList.takeWhile (fun c => c != 'e' && c != 'E')).all
    (fun c => !(('1' ≤ c) && (c ≤ '9')))

/-- Python truthiness of a decoded JSON value. -/
def jsonTruthy : Json → Bool
  | Json.null => false
  | Json.bool b => b
  | Json.num lex => !(numLexIsZero lex)
  | Json.str s => !s.isEmpty
  | Json.arr l => !l.isEmpty
  | Json.obj l => !l.isEmpty

/-- Embedding of the `for test_case in test_case_definitions` loop of
`process_and_create_test_cases` (source lines 294-318).  `childCreate i` is
the tracker's response to the i-th subtask-creation request.  The first
missing field of an element raises and aborts the whole call. -/
def process_tc_list (childCreate : Nat → Option String) :
    List Json → Nat → List String → Except PyError (List String)
  | [], _, acc => Except.ok acc
  | tc :: rest, i, acc =>
    match readTestCase tc with
    | Except.error e => Except.error e
    | Except.ok _ =>
      match childCreate i with
      | some k => process_tc_list childCreate rest (i + 1) (acc ++ [k])
      | none => process_tc_list childCreate rest (i + 1) acc

/-- Embedding of `process_and_create_test_cases` (source lines 287-320),
taking the already-parsed generation result (`test_case_definitions`).
A falsy value (None, empty list, ...) skips the loop; a truthy non-list
value fails on iteration/subscripting, modelled as `TypeError`. -/
def process_and_create_test_cases (test_case_definitions : Option Json)
    (childCreate : Nat → Option String) : Except PyError (List String) :=
  match test_case_definitions with
  | none => Except.ok []
  | some j =>
    if jsonTruthy j then
      match j with
      | Json.arr l => process_tc_list childCreate l 0 []
      | _ => Except.error PyError.typeError
    else Except.ok []

/-- Uncaught exceptions that can crash a run of `main`: the generator's
`ConnectionError` on pool exhaustion, or a Python error raised by an
unguarded read of malformed (but JSON-parsable) planner output. -/
inductive RunError where
  | connectionError
  | pyError (e : PyError)
  deriving DecidableEq, Repr

/-- Rendering of a decoded JSON value when interpolated by an f-string
(Python `str(x)`).  Only string payloads occur in the runs the claims
reason about, and no modelled observable of `main_run` depends on the
rendered text (creation outcomes are oracle-indexed by request position,
not by request content), so composite values are abbreviated. -/
def pyStr : Json → String
  | Json.str s => s
  | Json.null => "None"
  | Json.bool true => "True"
  | Json.bool false => "False"
  | Json.num lex => lex
  | Json.arr _ => "[...]"
  | Json.obj _ => "\x7b...\x7d"

/-- The unguarded field reads performed on one parsed subtask element by
`create_and_link_tasks`: the description f-string (source lines 271-274)
reads `summary`, `category`, `component` in that order, and the creation
call (line 276) reads `title`; the KeyError of the first absent field
propagates. -/
def readTaskSpec (task : Json) : Except PyError TaskSpec :=
  match jget task ("summary") with
  | Except.error e => Except.error e
  | Except.ok s =>
    match jget task ("category") with
    | Except.error e => Except.error e
    | Except.ok c =>
      match jget task ("component") with
      | Except.error e => Except.error e
      | Except.ok comp =>
        match jget task ("title") with
        | Except.error e => Except.error e
        | Except.ok t => Except.ok ⟨pyStr t, pyStr s, pyStr c, pyStr comp⟩

/-- The `for i, task in enumerate(subtask_definitions, 1)` print loop of
`main` (source lines 346-347): it reads `title` of every element before
any ticket is created, so a missing title raises KeyError here first. -/
def print_titles_loop : List Json → Except PyError Unit
  | [] => Except.ok ()
  | task :: rest =>
    match jget task ("title") with
    | Except.error e => Except.error e
    | Except.ok _ => print_titles_loop rest

/-- The per-element field reads of the `create_and_link_tasks` loop, in
element order.  The source interleaves these reads with the creation
requests; performing them before the creations leaves every observable of
`main_run` unchanged: the reads do not depend on creation outcomes, the
error payload of the first malformed element is the same, and whether an
exception escapes (and hence whether the report runs) agrees. -/
def read_task_specs : List Json → Except PyError (List TaskSpec)
  | [] => Except.ok []
  | task :: rest =>
    match readTaskSpec task with
    | Except.error e => Except.error e
    | Except.ok sp =>
      match read_task_specs rest with
      | Except.error e => Except.error e
      | Except.ok sps => Except.ok (sp :: sps)

/-- Oracles for one run of `main` (source lines 323-368): outcomes of the
remote calls, in program order.  `parentCreate` is the result of the parent
epic creation; `subtasksPlan` is the outcome of
`generate_subtasks_from_requirement` (`Except.error ()` = the generator
raised `ConnectionError`; `Except.ok p` = the raw `parse_json_from_text`
result, an arbitrary JSON value or the `None` sentinel, so malformed output
is representable); `createOutcome` feeds `create_and_link_tasks`;
`testPlan i` is likewise the raw outcome of `generate_test_cases_for_task`
for the i-th created task, and `childCreate i j` the creation outcome of
its j-th test subtask. -/
structure MainOracles where
  parentCreate : Option String
  subtasksPlan : Except Unit (Option Json)
  available_link_types : List LinkType
  createOutcome : Nat → Option String
  testPlan : Nat → Except Unit (Option Json)
  childCreate : Nat → Nat → Option String

/-- Embedding of the `for task_key in created_task_keys` loop of `main`
(source lines 355-363): look the key up in the mapping, skip with a warning
when absent, otherwise generate test cases (an exhausted generator's
`ConnectionError` propagates) and run `process_and_create_test_cases` on
the parsed value, whose uncaught KeyError/TypeError on malformed elements
propagates as well. -/
def main_task_loop (o : MainOracles) (task_data_map : List (String × TaskSpec)) :
    List String → Nat → Except RunError Unit
  | [], _ => Except.ok ()
  | k :: ks, i =>
    match dictGet task_data_map k with
    | some _ =>
      match o.testPlan i with
      | Except.error _ => Except.error RunError.connectionError
      | Except.ok parsed =>
        match process_and_create_test_cases parsed (o.childCreate i) with
        | Except.error e => Except.error (RunError.pyError e)
        | Except.ok _ => main_task_loop o task_data_map ks (i + 1)
    | none => main_task_loop o task_data_map ks (i + 1)

/-- Embedding of `main` (source lines 323-368).  `Except.ok b` models
normal termination, with `b` true exactly when the final
`get_project_issues` report was executed; `Except.error e` models an
uncaught exception crashing the process before the report: the generator's
`ConnectionError`, a TypeError from iterating or subscripting a truthy
non-list parse result, a KeyError from the `title` reads of the print loop
(line 347) or the `summary`/`category`/`component`/`title` reads of the
creation loop (lines 271-276), or an error from the test-case stage (lines
295-312, reached via line 359).  The only normal path that skips the
report is the early `return` taken when the parent ticket creation
fails. -/
def main_run (o : MainOracles) : Except RunError Bool :=
  match o.parentCreate with
  | none => Except.ok false
  | some parent_ticket_key =>
    match o.subtasksPlan with
    | Except.error _ => Except.error RunError.connectionError
    | Except.ok none => Except.ok true
    | Except.ok (some subtask_definitions) =>
      if jsonTruthy subtask_definitions then
        match subtask_definitions with
        | Json.arr l =>
          match print_titles_loop l with
          | Except.error e => Except.error (RunError.pyError e)
          | Except.ok _ =>
            match read_task_specs l with
            | Except.error e => Except.error (RunError.pyError e)
            | Except.ok specs =>
              let r := create_and_link_tasks parent_ticket_key specs
                o.available_link_types o.createOutcome
              if r.created_issue_keys.isEmpty then Except.ok true
              else
                match main_task_loop o r.issue_data_mapping r.created_issue_keys 0 with
                | Except.error e => Except.error e
                | Except.ok _ => Except.ok true
        | _ => Except.error (RunError.pyError PyError.typeError)
      else Except.ok true

/-- Concrete all-failing generation oracle. -/
def failingOracle : Nat → Option String := fun _ => none

/-- Concrete run oracles in which the parent epic creation fails. -/
def mainOraclesParentFail : MainOracles :=
  { parentCreate := none
    subtasksPlan := Except.ok none
    available_link_types := []
    createOutcome := fun _ => none
    testPlan := fun _ => Except.ok none
    childCreate := fun _ _ => none }

/-- Concrete well-formed test case element. -/
def sampleTestCaseJson : Json :=
  Json.obj [("test_id", Json.str ("TC-1")), ("test_name", Json.str ("Login works")),
    ("priority", Json.str ("High")), ("description", Json.str ("Check login")),
    ("steps", Json.arr [Json.str ("Open page")]), ("expected_result", Json.str ("Success"))]

/-- Three concrete task specifications. -/
def demoTasks : List TaskSpec :=
  [⟨"T1", "s1", "Backend", "m1"⟩, ⟨"T2", "s2", "Frontend", "m2"⟩, ⟨"T3", "s3", "Testing", "m3"⟩]

/-- Concrete creation oracle: the second of three creations fails. -/
def demoCreateOutcome : Nat → Option String := fun i =>
  if i = 0 then some ("CPG-11") else if i = 2 then some ("CPG-12") else none

/-- Concrete available link types. -/
def demoLinkTypes : List LinkType := [⟨"Relates", "relates to", "relates to"⟩]

/-- Concrete well-formed parsed subtask list carrying all four fields. -/
def demoTasksJson : List Json :=
  [Json.obj [("summary", Json.str ("s1")), ("category", Json.str ("Backend")),
     ("component", Json.str ("m1")), ("title", Json.str ("T1"))],
   Json.obj [("summary", Json.str ("s2")), ("category", Json.str ("Frontend")),
     ("component", Json.str ("m2")), ("title", Json.str ("T2"))],
   Json.obj [("summary", Json.str ("s3")), ("category", Json.str ("Testing")),
     ("component", Json.str ("m3")), ("title", Json.str ("T3"))]]

/-- Concrete run oracles for a fully successful run (the per-task test
generation yields unparsable text, a benign empty outcome). -/
def mainOraclesHappy : MainOracles :=
  { parentCreate := some ("CPG-10")
    subtasksPlan := Except.ok (some (Json.arr demoTasksJson))
    available_link_types := demoLinkTypes
    createOutcome := demoCreateOutcome
    testPlan := fun _ => Except.ok none
    childCreate := fun _ _ => none }

/-- The same run except that the planner returns a parsed subtask list
whose single element is an empty object, lacking every required field. -/
def mainOraclesMalformed : MainOracles :=
  { mainOraclesHappy with subtasksPlan := Except.ok (some (Json.arr [Json.obj []])) }

/-- Concrete oracle failing on the first attempt and succeeding afterwards. -/
def stickyOracle : Nat → Option String
  | 0 => none
  | _ => some ("ok")

/-- Concrete oracle whose generation always returns unparsable text. -/
def succeedingOracle : Nat → Option String := fun _ => some ("not json")

/-! Helper lemmas about the key-rotation loop. -/

theorem genLoop_allFail (oracle : Nat → Option String) (N : Nat)
    (hfail : ∀ i, oracle i = none) :
    ∀ fuel c a, c < N →
      genLoop oracle N fuel c a =
        ⟨none, (c + fuel) % N, (List.range fuel).map (fun i => (c + i) % N)⟩ := by
  intro fuel
  induction fuel with
  | zero =>
    intro c a hc
    simp [genLoop, Nat.mod_eq_of_lt hc]
  | succ fuel ih =>
    intro c a hc
    have hN : 0 < N := Nat.lt_of_le_of_lt (Nat.zero_le c) hc
    have hc1 : (c + 1) % N < N := Nat.mod_lt _ hN
    simp only [genLoop, hfail]
    rw [ih ((c + 1) % N) (a + 1) hc1]
    simp only [GenResult.mk.injEq, true_and]
    refine ⟨?_, ?_⟩
    · rw [Nat.mod_add_mod]
      congr 1
      omega
    · rw [List.range_succ_eq_map fuel, List.map_cons, List.map_map]
      have hhead : (c + 0) % N = c := by
        rw [Nat.add_zero]
        exact Nat.mod_eq_of_lt hc
      rw [hhead]
      have hfun : (fun i => ((c + 1) % N + i) % N) = ((fun i => (c + i) % N) ∘ Nat.succ) := by
        funext i
        show ((c + 1) % N + i) % N = (c + Nat.succ i) % N
        rw [Nat.mod_add_mod]
        congr 1
        omega
      rw [hfun]

theorem genLoop_success (oracle : Nat → Option String) (N : Nat) (t : String) :
    ∀ j fuel c a, c < N → j < fuel → oracle (a + j) = some t →
      (∀ i, i < j → oracle (a + i) = none) →
      genLoop oracle N fuel c a =
        ⟨some t, (c + j) % N, (List.range (j + 1)).map (fun i => (c + i) % N)⟩ := by
  intro j
  induction j with
  | zero =>
    intro fuel c a hc hj hsucc _
    obtain ⟨fuel, rfl⟩ : ∃ f, fuel = f + 1 := ⟨fuel - 1, by omega⟩
    rw [Nat.add_zero] at hsucc
    simp only [genLoop, hsucc]
    have h1 : List.range 1 = [0] := rfl
    rw [h1]
    simp [Nat.mod_eq_of_lt hc]
  | succ j ih =>
    intro fuel c a hc hj hsucc hbefore
    obtain ⟨fuel, rfl⟩ : ∃ f, fuel = f + 1 := ⟨fuel - 1, by omega⟩
    have hN : 0 < N := Nat.lt_of_le_of_lt (Nat.zero_le c) hc
    have hc1 : (c + 1) % N < N := Nat.mod_lt _ hN
    have h0 : oracle a = none := by
      have := hbefore 0 (by omega)
      rwa [Nat.add_zero] at this
    simp only [genLoop, h0]
    have hsucc1 : oracle (a + 1 + j) = some t := by
      have he : a + 1 + j = a + (j + 1) := by omega
      rw [he]
      exact hsucc
    have hbefore1 : ∀ i, i < j → oracle (a + 1 + i) = none := by
      intro i hi
      have he : a + 1 + i = a + (i + 1) := by omega
      rw [he]
      exact hbefore (i + 1) (by omega)
    rw [ih fuel ((c + 1) % N) (a + 1) hc1 (by omega) hsucc1 hbefore1]
    simp only [GenResult.mk.injEq, true_and]
    refine ⟨?_, ?_⟩
    · rw [Nat.mod_add_mod]
      congr 1
      omega
    · rw [List.range_succ_eq_map (j + 1), List.map_cons, List.map_map]
      have hhead : (c + 0) % N = c := by
        rw [Nat.add_zero]
        exact Nat.mod_eq_of_lt hc
      rw [hhead]
      have hfun : (fun i => ((c + 1) % N + i) % N) = ((fun i => (c + i) % N) ∘ Nat.succ) := by
        funext i
        show ((c + 1) % N + i) % N = (c + Nat.succ i) % N
        rw [Nat.mod_add_mod]
        congr 1
        omega
      rw [hfun]

theorem genLoop_attempts_le (oracle : Nat → Option String) (N : Nat) :
    ∀ fuel c a, (genLoop oracle N fuel c a).attempts.length ≤ fuel := by
  intro fuel
  induction fuel with
  | zero => intro c a; simp [genLoop]
  | succ fuel ih =>
    intro c a
    simp only [genLoop]
    cases h : oracle a with
    | some t => simp
    | none =>
      simpa using Nat.succ_le_succ (ih ((c + 1) % N) (a + 1))

theorem addModInj (N c x y : Nat) (hx : x < N) (hy : y < N)
    (h : (c + x) % N = (c + y) % N) : x = y := by
  rcases Nat.le_total x y with hle | hle
  · have hdvd := (Nat.modEq_iff_dvd' (Nat.add_le_add_left hle c)).mp h
    have he : c + y - (c + x) = y - x := by omega
    rw [he] at hdvd
    rcases Nat.eq_zero_or_pos (y - x) with h0 | hpos
    · omega
    · have := Nat.le_of_dvd hpos hdvd
      omega
  · have hdvd := (Nat.modEq_iff_dvd' (Nat.add_le_add_left hle c)).mp h.symm
    have he : c + x - (c + y) = x - y := by omega
    rw [he] at hdvd
    rcases Nat.eq_zero_or_pos (x - y) with h0 | hpos
    · omega
    · have := Nat.le_of_dvd hpos hdvd
      omega

/-- C3: for a pool of size N ≥ 1 and a sequence of failing generation calls,
`generate_with_gemini_resilience` makes exactly N attempts (and never more
than N for any outcome sequence), each attempt at a distinct cursor
position, every key position of the pool is attempted, and only then is the
`ConnectionError` (ExhaustedCredentials) raised. -/
theorem gemini_resilience_exhaustion_cycle (N c : Nat) (oracle : Nat → Option String)
    (_hN : 1 ≤ N) (hc : c < N) (hfail : ∀ i, oracle i = none) :
    (generate_with_gemini_resilience N oracle c).result = none
    ∧ (generate_with_gemini_resilience N oracle c).attempts.length = N
    ∧ (generate_with_gemini_resilience N oracle c).attempts.Nodup
    ∧ (∀ k, k < N → k ∈ (generate_with_gemini_resilience N oracle c).attempts)
    ∧ (∀ orc : Nat → Option String, (generate_with_gemini_resilience N orc c).attempts.length ≤ N) := by
  have h := genLoop_allFail oracle N hfail N c 0 hc
  unfold generate_with_gemini_resilience
  rw [h]
  refine ⟨rfl, by simp, ?_, ?_, ?_⟩
  · exact List.Nodup.map_on
      (fun x hx y hy hxy =>
        addModInj N c x y (List.mem_range.mp hx) (List.mem_range.mp hy) hxy)
      (List.nodup_range N)
  · intro k hk
    rw [List.mem_map]
    by_cases hck : c ≤ k
    · refine ⟨k - c, List.mem_range.mpr (by omega), ?_⟩
      rw [(by omega : c + (k - c) = k)]
      exact Nat.mod_eq_of_lt hk
    · refine ⟨k + N - c, List.mem_range.mpr (by omega), ?_⟩
      rw [(by omega : c + (k + N - c) = k + N), Nat.add_mod_right]
      exact Nat.mod_eq_of_lt hk
  · intro orc
    exact genLoop_attempts_le orc N N c 0

theorem gemini_resilience_exhaustion_cycle_witness :
    (generate_with_gemini_resilience 2 failingOracle 0).result = none
    ∧ (generate_with_gemini_resilience 2 failingOracle 0).attempts.length = 2
    ∧ (generate_with_gemini_resilience 2 failingOracle 0).attempts.Nodup
    ∧ 0 ∈ (generate_with_gemini_resilience 2 failingOracle 0).attempts
    ∧ 1 ∈ (generate_with_gemini_resilience 2 failingOracle 0).attempts := by
  have h := gemini_resilience_exhaustion_cycle 2 0 failingOracle (by decide) (by decide)
    (fun i => rfl)
  exact ⟨h.1, h.2.1, h.2.2.1, h.2.2.2.1 0 (by decide), h.2.2.2.1 1 (by decide)⟩

/-- C8: when some attempt succeeds, the call returns that attempt's text
immediately (the attempt trace ends right there), and the shared cursor is
left at the pool position of the succeeding attempt, `(c + j) % N` after j
failures from entry cursor c — not reset to the pool's first key; in
particular a successful first attempt leaves the cursor unchanged. -/
theorem gemini_resilience_sticky_cursor (N c j : Nat) (t : String)
    (oracle : Nat → Option String) (hc : c < N) (hj : j < N)
    (hsucc : oracle j = some t) (hbefore : ∀ i, i < j → oracle i = none) :
    (generate_with_gemini_resilience N oracle c).result = some t
    ∧ (generate_with_gemini_resilience N oracle c).cursor = (c + j) % N
    ∧ (generate_with_gemini_resilience N oracle c).attempts.length = j + 1
    ∧ (generate_with_gemini_resilience N oracle c).attempts.getLast? = some ((c + j) % N)
    ∧ (j = 0 → (generate_with_gemini_resilience N oracle c).cursor = c) := by
  have h := genLoop_success oracle N t j N c 0 hc hj
    (by rwa [Nat.zero_add]) (fun i hi => by rw [Nat.zero_add]; exact hbefore i hi)
  unfold generate_with_gemini_resilience
  rw [h]
  refine ⟨rfl, rfl, by simp, ?_, ?_⟩
  · rw [List.range_succ j, List.map_append]
    exact List.getLast?_concat _
  · intro hj0
    subst hj0
    show (c + 0) % N = c
    rw [Nat.add_zero]
    exact Nat.mod_eq_of_lt hc

theorem gemini_resilience_sticky_cursor_witness :
    (generate_with_gemini_resilience 2 stickyOracle 1).result = some ("ok")
    ∧ (generate_with_gemini_resilience 2 stickyOracle 1).cursor = 0
    ∧ (generate_with_gemini_resilience 2 stickyOracle 1).attempts.length = 2 := by
  have h := gemini_resilience_sticky_cursor 2 1 1 ("ok") stickyOracle (by decide) (by decide)
    rfl (fun i hi => by
      have hi0 : i = 0 := by omega
      subst hi0
      rfl)
  exact ⟨h.1, h.2.1.trans (by decide), h.2.2.1⟩

/-! Helper lemmas about the task-creation loop and the Python dict model. -/

theorem dictGet_dictSet {α : Type} (m : List (String × α)) (k k' : String) (v : α) :
    dictGet (dictSet m k v) k' = if k' = k then some v else dictGet m k' := by
  induction m with
  | nil =>
    by_cases h : k' = k
    · subst h
      simp [dictSet, dictGet]
    · simp [dictSet, dictGet, h, Ne.symm h]
  | cons p rest ih =>
    by_cases hpk : p.1 = k
    · have hset : dictSet (p :: rest) k v = (k, v) :: rest := by
        simp [dictSet, hpk]
      by_cases h : k' = k
      · subst h
        simp [hset, dictGet]
      · simp [hset, dictGet, h, Ne.symm h, hpk]
    · have hset : dictSet (p :: rest) k v = p :: dictSet rest k v := by
        simp [dictSet, hpk]
      by_cases hpk' : p.1 = k'
      · have hne : ¬k' = k := fun he => hpk (by rw [hpk', he])
        simp [hset, dictGet, hpk', hne]
      · simp [hset, dictGet, hpk', ih]

theorem dictSet_len_of_fresh {α : Type} (m : List (String × α)) (k : String) (v : α)
    (h : dictGet m k = none) : (dictSet m k v).length = m.length + 1 := by
  induction m with
  | nil => simp [dictSet]
  | cons p rest ih =>
    by_cases hpk : p.1 = k
    · rw [dictGet, if_pos (by simp [hpk])] at h
      exact absurd h (by simp)
    · rw [dictGet, if_neg (by simp [hpk])] at h
      simp [dictSet, hpk, ih h]

theorem rangeFilterMapSucc (g : Nat → Option String) (n i : Nat) :
    (List.range (n + 1)).filterMap (fun j => g (i + j)) =
      (match g i with
       | some k => [k]
       | none => []) ++ (List.range n).filterMap (fun j => g (i + 1 + j)) := by
  rw [List.range_succ_eq_map n, List.filterMap_cons, List.filterMap_map]
  have hfun : ((fun j => g (i + j)) ∘ Nat.succ) = (fun j => g (i + 1 + j)) := by
    funext j
    show g (i + Nat.succ j) = g (i + 1 + j)
    congr 1
    omega
  rw [hfun]
  cases h : g (i + 0) <;> rw [Nat.add_zero] at h <;> rw [h]
  · rfl
  · rfl

theorem catl_loop_keys_links (parent : String) (ltu : Option String) (co : Nat → Option String) :
    ∀ (ts : List TaskSpec) (i : Nat) (k0 : List String) (m0 : List (String × TaskSpec))
      (l0 : List LinkAttempt),
      (catl_loop parent ltu co ts i ⟨k0, m0, l0⟩).created_issue_keys
        = k0 ++ (List.range ts.length).filterMap (fun j => co (i + j))
      ∧ (catl_loop parent ltu co ts i ⟨k0, m0, l0⟩).link_attempts
        = l0 ++ (match ltu with
            | some lt =>
              if lt.isEmpty then []
              else ((List.range ts.length).filterMap (fun j => co (i + j))).map
                (fun k => (⟨parent, k, lt⟩ : LinkAttempt))
            | none => []) := by
  intro ts
  induction ts with
  | nil =>
    intro i k0 m0 l0
    constructor
    · simp [catl_loop]
    · cases ltu with
      | none => simp [catl_loop]
      | some lt =>
        by_cases hE : lt.isEmpty <;> simp [catl_loop, hE]
  | cons task rest ih =>
    intro i k0 m0 l0
    have hr := rangeFilterMapSucc co rest.length i
    cases h0 : co i with
    | none =>
      rw [h0] at hr
      simp only [List.nil_append] at hr
      simp only [catl_loop, h0, List.length_cons]
      rw [hr]
      exact ih (i + 1) k0 m0 l0
    | some k =>
      rw [h0] at hr
      simp only [catl_loop, h0, List.length_cons]
      rw [hr]
      cases ltu with
      | none =>
        obtain ⟨h1, h2⟩ := ih (i + 1) (k0 ++ [k]) (dictSet m0 k task) l0
        constructor
        · rw [h1]
          simp
        · rw [h2]
      | some lt =>
        cases hE : lt.isEmpty with
        | true =>
          simp only [hE, if_true]
          obtain ⟨h1, h2⟩ := ih (i + 1) (k0 ++ [k]) (dictSet m0 k task) l0
          constructor
          · rw [h1]
            simp
          · rw [h2]
            simp [hE]
        | false =>
          simp only [hE, Bool.false_eq_true, if_false]
          obtain ⟨h1, h2⟩ :=
            ih (i + 1) (k0 ++ [k]) (dictSet m0 k task) (l0 ++ [⟨parent, k, lt⟩])
          constructor
          · rw [h1]
            simp
          · rw [h2]
            simp [hE]

theorem catl_loop_map_len (parent : String) (ltu : Option String) (co : Nat → Option String)
    (hinj : ∀ i j k, co i = some k → co j = some k → i = j) :
    ∀ (ts : List TaskSpec) (i : Nat) (k0 : List String) (m0 : List (String × TaskSpec))
      (l0 : List LinkAttempt),
      (∀ j k, co (i + j) = some k → dictGet m0 k = none) →
      (catl_loop parent ltu co ts i ⟨k0, m0, l0⟩).issue_data_mapping.length
        = m0.length + ((List.range ts.length).filterMap (fun j => co (i + j))).length := by
  intro ts
  induction ts with
  | nil =>
    intro i k0 m0 l0 hfresh
    simp [catl_loop]
  | cons task rest ih =>
    intro i k0 m0 l0 hfresh
    have hr := rangeFilterMapSucc co rest.length i
    cases h0 : co i with
    | none =>
      rw [h0] at hr
      simp only [List.nil_append] at hr
      simp only [catl_loop, h0, List.length_cons]
      rw [hr]
      exact ih (i + 1) k0 m0 l0
        (fun j k hk => hfresh (j + 1) k (by rwa [(by omega : i + (j + 1) = i + 1 + j)]))
    | some k =>
      rw [h0] at hr
      have hfreshk : dictGet m0 k = none := hfresh 0 k (by rwa [Nat.add_zero])
      have hfresh2 : ∀ j k2, co (i + 1 + j) = some k2 →
          dictGet (dictSet m0 k task) k2 = none := by
        intro j k2 hk2
        rw [dictGet_dictSet]
        by_cases hkk : k2 = k
        · subst hkk
          have heq := hinj (i + 1 + j) i k2 hk2 h0
          omega
        · rw [if_neg hkk]
          exact hfresh (j + 1) k2 (by rwa [(by omega : i + (j + 1) = i + 1 + j)])
      simp only [List.singleton_append] at hr
      simp only [catl_loop, h0, List.length_cons]
      rw [hr, ih (i + 1) (k0 ++ [k]) (dictSet m0 k task) _ hfresh2,
        dictSet_len_of_fresh m0 k task hfreshk]
      simp only [List.length_cons]
      omega

theorem catl_loop_lookup (parent : String) (ltu : Option String) (co : Nat → Option String) :
    ∀ (ts : List TaskSpec) (i : Nat) (k0 : List String) (m0 : List (String × TaskSpec))
      (l0 : List LinkAttempt),
      (∀ k, k ∈ k0 → (dictGet m0 k).isSome = true) →
      ∀ k, k ∈ (catl_loop parent ltu co ts i ⟨k0, m0, l0⟩).created_issue_keys →
        (dictGet (catl_loop parent ltu co ts i ⟨k0, m0, l0⟩).issue_data_mapping k).isSome = true := by
  intro ts
  induction ts with
  | nil =>
    intro i k0 m0 l0 hinv k hk
    simp only [catl_loop] at hk ⊢
    exact hinv k hk
  | cons task rest ih =>
    intro i k0 m0 l0 hinv k hk
    cases h0 : co i with
    | none =>
      simp only [catl_loop, h0] at hk ⊢
      exact ih (i + 1) k0 m0 l0 hinv k hk
    | some k1 =>
      have hinv2 : ∀ k2, k2 ∈ k0 ++ [k1] → (dictGet (dictSet m0 k1 task) k2).isSome = true := by
        intro k2 hk2
        rw [dictGet_dictSet]
        by_cases hkk : k2 = k1
        · rw [if_pos hkk]
          rfl
        · rw [if_neg hkk]
          have hk2' : k2 ∈ k0 := by
            rcases List.mem_append.mp hk2 with h | h
            · exact h
            · exact absurd (List.mem_singleton.mp h) hkk
          exact hinv k2 hk2'
      simp only [catl_loop, h0] at hk ⊢
      exact ih (i + 1) (k0 ++ [k1]) (dictSet m0 k1 task) _ hinv2 k hk

/-- C4: `create_and_link_tasks` returns exactly one mapping entry per task
whose creation succeeded (a per-item creation failure is skipped and the
remaining items are still processed, as the filterMap over all positions
shows), and a parent-to-child link is attempted exactly for the
successfully created keys when a (truthy) link type was resolved, and never
when none was. -/
theorem create_and_link_tasks_success_entries (parent : String) (tasks : List TaskSpec)
    (available : List LinkType) (co : Nat → Option String)
    (hinj : ∀ i j k, co i = some k → co j = some k → i = j) :
    (create_and_link_tasks parent tasks available co).created_issue_keys
      = (List.range tasks.length).filterMap co
    ∧ (create_and_link_tasks parent tasks available co).issue_data_mapping.length
      = ((List.range tasks.length).filterMap co).length
    ∧ (∀ lt, select_link_type available = some lt → lt.isEmpty = false →
        (create_and_link_tasks parent tasks available co).link_attempts
          = ((List.range tasks.length).filterMap co).map
              (fun k => (⟨parent, k, lt⟩ : LinkAttempt)))
    ∧ (select_link_type available = none →
        (create_and_link_tasks parent tasks available co).link_attempts = []) := by
  have hco : (fun j => co (0 + j)) = co := funext (fun j => by rw [Nat.zero_add])
  have hkl := catl_loop_keys_links parent (select_link_type available) co tasks 0 [] [] []
  have hml := catl_loop_map_len parent (select_link_type available) co hinj tasks 0 [] [] []
    (fun j k _ => rfl)
  rw [hco] at hkl hml
  unfold create_and_link_tasks
  refine ⟨?_, ?_, ?_, ?_⟩
  · rw [hkl.1]
    simp
  · rw [hml]
    simp
  · intro lt hlt hE
    have h2 := hkl.2
    rw [hlt] at h2
    rw [hlt, h2]
    simp [hE]
  · intro hlt
    have h2 := hkl.2
    rw [hlt] at h2
    rw [hlt, h2]
    simp

theorem create_and_link_tasks_success_entries_witness :
    (create_and_link_tasks ("CPG-10") demoTasks demoLinkTypes demoCreateOutcome).issue_data_mapping.length = 2
    ∧ (create_and_link_tasks ("CPG-10") demoTasks demoLinkTypes demoCreateOutcome).created_issue_keys
        = ["CPG-11", "CPG-12"]
    ∧ (create_and_link_tasks ("CPG-10") demoTasks demoLinkTypes demoCreateOutcome).link_attempts
        = [⟨"CPG-10", "CPG-11", "Relates"⟩, ⟨"CPG-10", "CPG-12", "Relates"⟩] := by
  have hinj : ∀ i j k, demoCreateOutcome i = some k → demoCreateOutcome j = some k → i = j := by
    intro i j k hi hj
    unfold demoCreateOutcome at hi hj
    split_ifs at hi hj
    all_goals try omega
    all_goals
      (have hk1 := Option.some.inj hi
       have hk2 := Option.some.inj hj
       rw [← hk1] at hk2
       exact absurd hk2 (by decide))
  have h := create_and_link_tasks_success_entries ("CPG-10") demoTasks demoLinkTypes
    demoCreateOutcome hinj
  refine ⟨h.2.1.trans (by decide), h.1.trans (by decide), ?_⟩
  have h3 := h.2.2.1 ("Relates") (by decide) (by decide)
  exact h3.trans (by decide)

/-- C7: the link type used by `create_and_link_tasks` is the first name in
the preference order Relates, Relates to, Dependency, Blocks that occurs
among the tracker-provided names; when none occurs but at least one link
type is available, the first available name is selected; when no link types
are available nothing is selected and no link is ever attempted. -/
theorem select_link_type_preference (available : List LinkType) :
    ((available.map (fun lt => lt.name)).contains ("Relates") = true →
      select_link_type available = some ("Relates"))
    ∧ ((available.map (fun lt => lt.name)).contains ("Relates") = false →
       (available.map (fun lt => lt.name)).contains ("Relates to") = true →
      select_link_type available = some ("Relates to"))
    ∧ ((available.map (fun lt => lt.name)).contains ("Relates") = false →
       (available.map (fun lt => lt.name)).contains ("Relates to") = false →
       (available.map (fun lt => lt.name)).contains ("Dependency") = true →
      select_link_type available = some ("Dependency"))
    ∧ ((available.map (fun lt => lt.name)).contains ("Relates") = false →
       (available.map (fun lt => lt.name)).contains ("Relates to") = false →
       (available.map (fun lt => lt.name)).contains ("Dependency") = false →
       (available.map (fun lt => lt.name)).contains ("Blocks") = true →
      select_link_type available = some ("Blocks"))
    ∧ ((∀ p, p ∈ preferred_link_types → (available.map (fun lt => lt.name)).contains p = false) →
       ∀ lt0 rest2, available = lt0 :: rest2 → select_link_type available = some lt0.name)
    ∧ (available = [] →
        select_link_type available = none
        ∧ ∀ parent tasks co,
            (create_and_link_tasks parent tasks available co).link_attempts = []) := by
  refine And.intro ?_ (And.intro ?_ (And.intro ?_ (And.intro ?_ (And.intro ?_ ?_))))
  · intro h1
    unfold select_link_type preferred_link_types
    simp only [List.find?_cons, h1]
  · intro h1 h2
    unfold select_link_type preferred_link_types
    simp only [List.find?_cons, h1, h2]
  · intro h1 h2 h3
    unfold select_link_type preferred_link_types
    simp only [List.find?_cons, h1, h2, h3]
  · intro h1 h2 h3 h4
    unfold select_link_type preferred_link_types
    simp only [List.find?_cons, h1, h2, h3, h4]
  · intro hall lt0 rest2 heq
    have h1 := hall ("Relates") (by simp [preferred_link_types])
    have h2 := hall ("Relates to") (by simp [preferred_link_types])
    have h3 := hall ("Dependency") (by simp [preferred_link_types])
    have h4 := hall ("Blocks") (by simp [preferred_link_types])
    subst heq
    unfold select_link_type preferred_link_types
    simp only [List.find?_cons, h1, h2, h3, h4, List.find?_nil]
  · intro heq
    subst heq
    constructor
    · rfl
    · intro parent tasks co
      have hkl := catl_loop_keys_links parent (select_link_type []) co tasks 0 [] [] []
      have hsel : select_link_type ([] : List LinkType) = none := rfl
      rw [hsel] at hkl
      unfold create_and_link_tasks
      rw [hsel, hkl.2]
      rfl

theorem select_link_type_preference_witness :
    select_link_type demoLinkTypes = some ("Relates")
    ∧ select_link_type [⟨"Duplicate", "d", "d"⟩] = some ("Duplicate")
    ∧ select_link_type [] = none
    ∧ (create_and_link_tasks ("CPG-10") demoTasks [] demoCreateOutcome).link_attempts = [] := by
  refine ⟨?_, ?_, ?_, ?_⟩
  · exact (select_link_type_preference demoLinkTypes).1 (by decide)
  · refine (select_link_type_preference [⟨"Duplicate", "d", "d"⟩]).2.2.2.2.1
      ?_ ⟨"Duplicate", "d", "d"⟩ [] rfl
    intro p hp
    simp [preferred_link_types] at hp
    rcases hp with rfl | rfl | rfl | rfl <;> decide
  · exact ((select_link_type_preference []).2.2.2.2.2 rfl).1
  · exact ((select_link_type_preference []).2.2.2.2.2 rfl).2 ("CPG-10") demoTasks demoCreateOutcome

/-- C9: every key in the key list returned by `create_and_link_tasks` is
also a key of the mapping it returns, since the two are extended together
on each successful creation; the orchestrator's defensive lookup in the
per-task test-case stage therefore cannot miss for these keys. -/
theorem created_keys_in_mapping (parent : String) (tasks : List TaskSpec)
    (available : List LinkType) (co : Nat → Option String) (k : String)
    (hk : k ∈ (create_and_link_tasks parent tasks available co).created_issue_keys) :
    (dictGet (create_and_link_tasks parent tasks available co).issue_data_mapping k).isSome
      = true := by
  unfold create_and_link_tasks at hk ⊢
  exact catl_loop_lookup parent (select_link_type available) co tasks 0 [] [] []
    (fun k2 hk2 => absurd hk2 (List.not_mem_nil k2)) k hk

theorem created_keys_in_mapping_witness :
    (dictGet
      (create_and_link_tasks ("CPG-10") demoTasks demoLinkTypes demoCreateOutcome).issue_data_mapping
      ("CPG-11")).isSome = true :=
  created_keys_in_mapping ("CPG-10") demoTasks demoLinkTypes demoCreateOutcome ("CPG-11")
    (by decide)

/-- C5: `parse_json_from_text` decodes the inclusive substring from the
first opening to the last closing square bracket, falls back to decoding
the whole raw text when no such bracket pair exists, and returns the None
sentinel instead of raising on a decode error; the three concrete examples
of the specification evaluate as stated. -/
theorem parse_json_from_text_spec :
    parse_json_from_text "noise [ \x7b\"a\":1\x7d ] trailing"
      = some (Json.arr [Json.obj [("a", Json.num "1")]])
    ∧ parse_json_from_text "\x7b\"a\":1\x7d" = some (Json.obj [("a", Json.num "1")])
    ∧ parse_json_from_text "not json" = none
    ∧ (∀ raw : String, strFindIdx raw.toList '[' = none →
        parse_json_from_text raw = json_loads raw)
    ∧ (∀ raw : String, ∀ i j, strFindIdx raw.toList '[' = some i →
        strRFindIdx raw.toList ']' = some j → i ≤ j →
        parse_json_from_text raw
          = json_loads (String.mk ((raw.toList.drop i).take (j + 1 - i)))) := by
  refine ⟨rfl, rfl, rfl, ?_, ?_⟩
  · intro raw hf
    simp only [parse_json_from_text]
    rw [hf]
  · intro raw i j hf hr hij
    simp only [parse_json_from_text]
    rw [hf, hr]
    dsimp only
    rw [if_pos hij]

theorem parse_json_from_text_spec_witness :
    parse_json_from_text "\x7b\"b\":2\x7d" = json_loads "\x7b\"b\":2\x7d"
    ∧ parse_json_from_text "x[1]y" = json_loads "[1]" := by
  have h := parse_json_from_text_spec
  constructor
  · exact h.2.2.2.1 "\x7b\"b\":2\x7d" rfl
  · exact (h.2.2.2.2 "x[1]y" 1 3 rfl rfl (by decide)).trans rfl

/-- C6: every tracker operation maps a non-success HTTP outcome to a
sentinel value instead of raising: issue and subtask creation return the
created key exactly on status 201 and None otherwise, the two reads return
the empty list on any non-200 status, and linking returns True exactly on
status 201. -/
theorem tracker_sentinel_contract :
    (∀ (r : CreateIssueResponse) (k : String),
      create_jira_issue r = some k ↔ r.status = 201 ∧ k = r.key)
    ∧ (∀ r : CreateIssueResponse, r.status ≠ 201 → create_jira_issue r = none)
    ∧ (∀ (r : CreateIssueResponse) (k : String),
      create_jira_child_issue r = some k ↔ r.status = 201 ∧ k = r.key)
    ∧ (∀ r : CreateIssueResponse, r.status ≠ 201 → create_jira_child_issue r = none)
    ∧ (∀ r : SearchResponse, r.status ≠ 200 → get_project_issues r = [])
    ∧ (∀ r : LinkTypesResponse, r.status ≠ 200 → get_jira_issue_link_types r = [])
    ∧ (∀ r : LinkResponse, link_jira_issues r = true ↔ r.status = 201) := by
  refine And.intro ?_ (And.intro ?_ (And.intro ?_ (And.intro ?_ (And.intro ?_ (And.intro ?_ ?_)))))
  · intro r k
    by_cases h : r.status = 201
    · simp [create_jira_issue, h]
      exact eq_comm
    · simp [create_jira_issue, h]
  · intro r h
    simp [create_jira_issue, h]
  · intro r k
    by_cases h : r.status = 201
    · simp [create_jira_child_issue, h]
      exact eq_comm
    · simp [create_jira_child_issue, h]
  · intro r h
    simp [create_jira_child_issue, h]
  · intro r h
    simp [get_project_issues, h]
  · intro r h
    simp [get_jira_issue_link_types, h]
  · intro r
    simp [link_jira_issues]

theorem tracker_sentinel_contract_witness :
    create_jira_issue ⟨201, "CPG-1"⟩ = some ("CPG-1")
    ∧ create_jira_issue ⟨400, "CPG-1"⟩ = none
    ∧ create_jira_child_issue ⟨500, "CPG-2"⟩ = none
    ∧ get_project_issues ⟨404, [⟨"CPG-3", "s", "Open", none⟩]⟩ = []
    ∧ get_jira_issue_link_types ⟨500, [⟨"Relates", "i", "o"⟩]⟩ = []
    ∧ link_jira_issues ⟨201⟩ = true := by
  have h := tracker_sentinel_contract
  exact ⟨(h.1 ⟨201, "CPG-1"⟩ ("CPG-1")).mpr ⟨rfl, rfl⟩,
    h.2.1 ⟨400, "CPG-1"⟩ (by decide),
    h.2.2.2.1 ⟨500, "CPG-2"⟩ (by decide),
    h.2.2.2.2.1 ⟨404, [⟨"CPG-3", "s", "Open", none⟩]⟩ (by decide),
    h.2.2.2.2.2.1 ⟨500, [⟨"Relates", "i", "o"⟩]⟩ (by decide),
    (h.2.2.2.2.2.2 ⟨201⟩).mpr rfl⟩

theorem process_tc_list_ok_fields (cc : Nat → Option String) :
    ∀ (l : List Json) (i : Nat) (acc res : List String),
      process_tc_list cc l i acc = Except.ok res →
      ∀ tc, tc ∈ l → readTestCase tc = Except.ok () := by
  intro l
  induction l with
  | nil =>
    intro i acc res _ tc htc
    exact absurd htc (List.not_mem_nil tc)
  | cons tc0 rest ih =>
    intro i acc res hok tc htc
    simp only [process_tc_list] at hok
    cases hrt : readTestCase tc0 with
    | error e =>
      rw [hrt] at hok
      exact Except.noConfusion hok
    | ok u =>
      rw [hrt] at hok
      rcases List.mem_cons.mp htc with rfl | hmem
      · cases u
        exact hrt
      · cases hcc : cc i <;> rw [hcc] at hok <;> exact ih _ _ _ hok tc hmem

/-- C10: `process_and_create_test_cases` reads the six fields of every
element of a non-empty parsed list without any guard: an element lacking a
field makes the call raise an uncaught KeyError (concretely, an empty
object raises KeyError on `test_id`), and conversely a run that completes
normally forces every element to carry all six fields. -/
theorem process_test_cases_missing_field_key_error :
    process_and_create_test_cases (some (Json.arr [Json.obj []])) (fun _ => none)
      = Except.error (PyError.keyError ("test_id"))
    ∧ (∀ (l : List Json) (cc : Nat → Option String) (res : List String),
        process_and_create_test_cases (some (Json.arr l)) cc = Except.ok res →
        ∀ tc, tc ∈ l → readTestCase tc = Except.ok ()) := by
  constructor
  · rfl
  · intro l cc res hok tc htc
    have hl : l ≠ [] := by
      intro he
      subst he
      exact absurd htc (List.not_mem_nil tc)
    have htr : jsonTruthy (Json.arr l) = true := by
      cases l with
      | nil => exact absurd rfl hl
      | cons a as => rfl
    simp only [process_and_create_test_cases, htr, if_true] at hok
    exact process_tc_list_ok_fields cc l 0 [] res hok tc htc

theorem process_test_cases_missing_field_key_error_witness :
    readTestCase sampleTestCaseJson = Except.ok () :=
  (process_test_cases_missing_field_key_error).2 [sampleTestCaseJson] (fun _ => none) []
    rfl sampleTestCaseJson (List.mem_singleton.mpr rfl)

/-- C1 (amended): when the generated text parses, the planner returns the
parse result, and when parsing fails it returns the None sentinel without
an exception; but when the generator exhausts every credential the
ConnectionError propagates out of `generate_subtasks_from_requirement` and
`generate_test_cases_for_task` instead of yielding an empty result. -/
theorem generate_subtasks_failure_contract (N c : Nat) (oracle : Nat → Option String) :
    (∀ t, (generate_with_gemini_resilience N oracle c).result = some t →
      generate_subtasks_from_requirement N oracle c
          = Except.ok (parse_json_from_text t, (generate_with_gemini_resilience N oracle c).cursor)
        ∧ generate_test_cases_for_task N oracle c
          = Except.ok (parse_json_from_text t, (generate_with_gemini_resilience N oracle c).cursor))
    ∧ ((generate_with_gemini_resilience N oracle c).result = none →
      generate_subtasks_from_requirement N oracle c = Except.error ()
        ∧ generate_test_cases_for_task N oracle c = Except.error ()) := by
  constructor
  · intro t ht
    simp only [generate_subtasks_from_requirement, generate_test_cases_for_task]
    rw [ht]
    exact ⟨rfl, rfl⟩
  · intro ht
    simp only [generate_subtasks_from_requirement, generate_test_cases_for_task]
    rw [ht]
    exact ⟨rfl, rfl⟩

theorem generate_subtasks_failure_contract_witness :
    generate_subtasks_from_requirement 1 succeedingOracle 0 = Except.ok (none, 0)
    ∧ generate_test_cases_for_task 1 succeedingOracle 0 = Except.ok (none, 0) := by
  have h := (generate_subtasks_failure_contract 1 0 succeedingOracle).1 ("not json") rfl
  exact ⟨h.1.trans rfl, h.2.trans rfl⟩

/-- C1 counterexample: with a pool of two keys and every generation attempt
failing, `generate_subtasks_from_requirement` does not return an empty
result; the ConnectionError propagates out of the planner. -/
theorem generate_subtasks_exhaustion_error_example :
    generate_subtasks_from_requirement 2 failingOracle 0 = Except.error () := rfl

theorem readTaskSpec_title (task : Json) (sp : TaskSpec)
    (h : readTaskSpec task = Except.ok sp) :
    ∃ v, jget task ("title") = Except.ok v := by
  unfold readTaskSpec at h
  cases h1 : jget task ("summary") with
  | error e =>
    rw [h1] at h
    exact Except.noConfusion h
  | ok s =>
    rw [h1] at h
    cases h2 : jget task ("category") with
    | error e =>
      rw [h2] at h
      exact Except.noConfusion h
    | ok c =>
      rw [h2] at h
      cases h3 : jget task ("component") with
      | error e =>
        rw [h3] at h
        exact Except.noConfusion h
      | ok comp =>
        rw [h3] at h
        cases h4 : jget task ("title") with
        | error e =>
          rw [h4] at h
          exact Except.noConfusion h
        | ok t => exact ⟨t, rfl⟩

theorem print_titles_loop_ok :
    ∀ l : List Json, (∀ t, t ∈ l → ∃ v, jget t ("title") = Except.ok v) →
      print_titles_loop l = Except.ok () := by
  intro l
  induction l with
  | nil => intro _; rfl
  | cons task rest ih =>
    intro hall
    obtain ⟨v, hv⟩ := hall task (List.mem_cons_self task rest)
    simp only [print_titles_loop, hv]
    exact ih (fun t ht => hall t (List.mem_cons_of_mem task ht))

theorem read_task_specs_ok :
    ∀ l : List Json, (∀ t, t ∈ l → ∃ sp, readTaskSpec t = Except.ok sp) →
      ∃ sps, read_task_specs l = Except.ok sps := by
  intro l
  induction l with
  | nil => intro _; exact ⟨[], rfl⟩
  | cons task rest ih =>
    intro hall
    obtain ⟨sp, hsp⟩ := hall task (List.mem_cons_self task rest)
    obtain ⟨sps, hsps⟩ := ih (fun t ht => hall t (List.mem_cons_of_mem task ht))
    refine ⟨sp :: sps, ?_⟩
    simp only [read_task_specs, hsp, hsps]

theorem main_task_loop_ok (o : MainOracles) (m : List (String × TaskSpec))
    (htest : ∀ i, o.testPlan i ≠ Except.error ())
    (htwf : ∀ i parsed, o.testPlan i = Except.ok parsed →
      ∃ res, process_and_create_test_cases parsed (o.childCreate i) = Except.ok res) :
    ∀ ks i, main_task_loop o m ks i = Except.ok () := by
  intro ks
  induction ks with
  | nil => intro i; rfl
  | cons k rest ih =>
    intro i
    cases hg : dictGet m k with
    | none =>
      simp only [main_task_loop, hg]
      exact ih (i + 1)
    | some td =>
      cases hp : o.testPlan i with
      | error e =>
        cases e
        exact absurd hp (htest i)
      | ok parsed =>
        obtain ⟨res, hres⟩ := htwf i parsed hp
        simp only [main_task_loop, hg, hp, hres]
        exact ih (i + 1)

/-- C2 (amended): the final `get_project_issues` report is executed exactly
on the runs in which the parent epic creation succeeds and every later
stage completes without an uncaught exception — no generation call
exhausts the credential pool and every truthy parsed planner output is a
list of elements carrying the fields the code reads.  When the parent
creation fails, `main` returns early without the report; when a generation
call exhausts the pool the uncaught ConnectionError, and when a parsed
subtask element lacks a required field (already the `title` read of the
print loop) the uncaught KeyError, crash the run before the report. -/
theorem main_run_report_execution (o : MainOracles) :
    (o.parentCreate = none → main_run o = Except.ok false)
    ∧ (∀ k, o.parentCreate = some k → o.subtasksPlan = Except.error () →
        main_run o = Except.error RunError.connectionError)
    ∧ (∀ k, o.parentCreate = some k →
        o.subtasksPlan = Except.ok (some (Json.arr [Json.obj []])) →
        main_run o = Except.error (RunError.pyError (PyError.keyError ("title"))))
    ∧ (∀ k, o.parentCreate = some k → o.subtasksPlan ≠ Except.error () →
        (∀ j, o.subtasksPlan = Except.ok (some j) → jsonTruthy j = true →
          ∃ l, j = Json.arr l ∧ ∀ t, t ∈ l → ∃ sp, readTaskSpec t = Except.ok sp) →
        (∀ i, o.testPlan i ≠ Except.error ()) →
        (∀ i parsed, o.testPlan i = Except.ok parsed →
          ∃ res, process_and_create_test_cases parsed (o.childCreate i) = Except.ok res) →
        main_run o = Except.ok true) := by
  refine ⟨?_, ?_, ?_, ?_⟩
  · intro h
    simp only [main_run, h]
  · intro k hk hplan
    simp only [main_run, hk, hplan]
  · intro k hk hsub
    simp only [main_run]
    rw [hk, hsub]
    exact rfl
  · intro k hk hplan hwf htest htwf
    simp only [main_run, hk]
    cases hp : o.subtasksPlan with
    | error e =>
      cases e
      exact absurd hp hplan
    | ok x =>
      cases x with
      | none => rfl
      | some j =>
        cases htr : jsonTruthy j with
        | false => simp only [htr, Bool.false_eq_true, if_false]
        | true =>
          obtain ⟨l, rfl, hall⟩ := hwf j hp htr
          simp only [htr, if_true]
          have htitles : print_titles_loop l = Except.ok () := by
            refine print_titles_loop_ok l ?_
            intro t ht
            obtain ⟨sp, hsp⟩ := hall t ht
            exact readTaskSpec_title t sp hsp
          obtain ⟨sps, hsps⟩ := read_task_specs_ok l hall
          simp only [htitles, hsps]
          cases hke : (create_and_link_tasks k sps o.available_link_types
              o.createOutcome).created_issue_keys.isEmpty with
          | true => simp only [hke, if_true]
          | false =>
            simp only [hke, Bool.false_eq_true, if_false]
            rw [main_task_loop_ok o
              (create_and_link_tasks k sps o.available_link_types o.createOutcome).issue_data_mapping
              htest htwf]

theorem main_run_report_execution_witness :
    main_run mainOraclesHappy = Except.ok true
    ∧ main_run mainOraclesMalformed
        = Except.error (RunError.pyError (PyError.keyError ("title"))) := by
  constructor
  · refine (main_run_report_execution mainOraclesHappy).2.2.2 ("CPG-10") rfl
      (fun hcon => Except.noConfusion hcon) ?_
      (fun _ hcon => Except.noConfusion hcon) ?_
    · intro j hj htr
      have hj2 : Json.arr demoTasksJson = j := Option.some.inj (Except.ok.inj hj)
      subst hj2
      refine ⟨demoTasksJson, rfl, ?_⟩
      intro t ht
      simp only [demoTasksJson, List.mem_cons, List.not_mem_nil, or_false] at ht
      rcases ht with rfl | rfl | rfl
      · exact ⟨_, rfl⟩
      · exact ⟨_, rfl⟩
      · exact ⟨_, rfl⟩
    · intro i parsed hp
      have hp2 : (none : Option Json) = parsed := Except.ok.inj hp
      rw [← hp2]
      exact ⟨[], rfl⟩
  · exact (main_run_report_execution mainOraclesMalformed).2.2.1 ("CPG-10") rfl rfl

/-- C2 counterexample: when the parent epic creation fails, `main` returns
early and the final `get_project_issues` report is not executed. -/
theorem main_run_parent_failure_skips_report_example :
    main_run mainOraclesParentFail = Except.ok false := rfl
